import Mathlib

/-!
Shallow embedding of the robot-DSL analyzer
(`src/analizador/analizador_lexico.py`, class `AnalizadorLexico`) in Lean 4.

The Python analyzer is a single-pass pipeline over whitespace-delimited
tokens.  Its mutable instance state (symbol table, quadruple list, error
list, quadruple counter, per-robot velocity registry) is threaded here as
an explicit `Estado` record; handlers that in Python mutate `self` and
return a new cursor position (or `-1` on error) become functions
`... -> Estado × Option Nat`.  Python exceptions raised inside a repeat
block are modelled with `Except String`.  Integer values are `Int`
(Python ints); the velocity registry stores `Int` since every value the
code ever puts there is an integer-valued float.  Error-message strings
reproduce the source's f-strings (apostrophes written with `\x27`,
braces with `\x7b`/`\x7d`).
-/

namespace RoboDK

/-- `Simbolo` dataclass: one row of the symbol table. -/
structure Simbolo where
  id : String
  metodo : String
  parametro : Int
  valor : Int
deriving Repr, DecidableEq

/-- `Cuadruplo` dataclass: one intermediate-representation instruction. -/
structure Cuadruplo where
  operador : String
  operando1 : String
  operando2 : String
  resultado : String
deriving Repr, DecidableEq

/-- The mutable instance state of `AnalizadorLexico`. -/
structure Estado where
  tablaSimbolos : List Simbolo
  cuadruplos : List Cuadruplo
  contadorCuadruplos : Nat
  errores : List String
  velocidadesPorRobot : List (String × Int)
deriving Repr, DecidableEq

/-- The analysis result dictionary (the keys the claims are about:
`exito`, `tabla_simbolos`, `cuadruplos`, `errores`; the HTML `salida`
is presentation only and not modelled). -/
structure Resultado where
  exito : Bool
  tablaSimbolos : List Simbolo
  cuadruplos : List Cuadruplo
  errores : List String
deriving Repr, DecidableEq

/-- `self.comandos`: the valid command vocabulary (with `.negativo` forms). -/
def comandos : List String :=
  ["base", "codo", "hombro", "garra", "velocidad", "repetir",
   "base.negativo", "codo.negativo", "hombro.negativo", "garra.negativo",
   "muñeca1.negativo", "muñeca2.negativo", "muñeca3.negativo"]

/-- `self.rangos`: the valid `(min, max)` range per command. -/
def rangos (c : String) : Option (Int × Int) :=
  if c = "base" then some (0, 360)
  else if c = "hombro" then some (0, 180)
  else if c = "codo" then some (0, 180)
  else if c = "garra" then some (0, 360)
  else if c = "velocidad" then some (1, 60)
  else if c = "repetir" then some (1, 100)
  else if c = "base.negativo" then some (0, 360)
  else if c = "hombro.negativo" then some (0, 180)
  else if c = "codo.negativo" then some (0, 180)
  else if c = "garra.negativo" then some (0, 360)
  else if c = "muñeca1.negativo" then some (0, 160)
  else if c = "muñeca2.negativo" then some (0, 120)
  else if c = "muñeca3.negativo" then some (0, 400)
  else none

/-- `self.comandos_negativos`: mapping of the `.negativo` command names to
their base component names. -/
def comandosNegativos (c : String) : Option String :=
  if c = "base.negativo" then some "base"
  else if c = "hombro.negativo" then some "hombro"
  else if c = "codo.negativo" then some "codo"
  else if c = "garra.negativo" then some "garra"
  else if c = "muñeca1.negativo" then some "muñeca1"
  else if c = "muñeca2.negativo" then some "muñeca2"
  else if c = "muñeca3.negativo" then some "muñeca3"
  else none

/-! String helpers.  Python's `str.lower()`, `str.split('.')`,
`str.endswith(..)`, `str.split()` and `int(..)` are re-implemented here by
structural recursion on the character list (the core library's
equivalents use well-founded recursion, which the kernel will not
unfold), with identical behaviour on the analyzer's inputs. -/

/-- Python `s.lower()` (ASCII case folding). -/
def toLowerStr (s : String) : String := String.mk (s.data.map Char.toLower)

/-- Helper for `splitPunto`: accumulate the current segment (reversed). -/
def splitPuntoAux : List Char → List Char → List String
  | [], acc => [String.mk acc.reverse]
  | c :: cs, acc =>
    if c = '.' then String.mk acc.reverse :: splitPuntoAux cs []
    else splitPuntoAux cs (c :: acc)

/-- Python `s.split('.')`: split at every dot, keeping empty segments. -/
def splitPunto (s : String) : List String := splitPuntoAux s.data []

/-- Python `s.endswith(suf)`. -/
def terminaCon (s suf : String) : Bool :=
  decide (s.data.reverse.take suf.data.length = suf.data.reverse)

/-- Helper for `splitWhitespace`: accumulate the current word (reversed). -/
def palabrasAux : List Char → List Char → List String
  | [], acc => if acc.isEmpty then [] else [String.mk acc.reverse]
  | c :: cs, acc =>
    if c.isWhitespace then
      if acc.isEmpty then palabrasAux cs []
      else String.mk acc.reverse :: palabrasAux cs []
    else palabrasAux cs (c :: acc)

/-- `self.patron_id = ^[A-Z]+[0-9]*$` with `IGNORECASE`: one or more ASCII
letters followed by zero or more digits. -/
def patronId (s : String) : Bool :=
  let cs := s.data
  (decide (cs ≠ [])) &&
    (decide (cs.takeWhile Char.isAlpha ≠ [])) &&
    ((cs.dropWhile Char.isAlpha).all Char.isDigit)

/-- `self.patron_valor = ^\d+$`: a non-empty all-digit token. -/
def patronValor (s : String) : Bool :=
  (decide (s.data ≠ [])) && s.data.all Char.isDigit

/-- Character class of the lexical check `^[a-zA-Z0-9.={}]+$`. -/
def lexChar (c : Char) : Bool :=
  c.isAlphanum || c = '.' || c = '=' || c = '\x7b' || c = '\x7d'

/-- The per-token lexical validation (`re.match(r'^[a-zA-Z0-9.={}]+$', w)`). -/
def lexToken (w : String) : Bool :=
  (decide (w.data ≠ [])) && w.data.all lexChar

/-- `int(s)` on a token that matched `patron_valor` (all decimal digits). -/
def valorNumerico (s : String) : Int :=
  ((s.data.foldl (fun n c => n * 10 + (c.toNat - '0'.toNat)) 0 : Nat) : Int)

/-- Python `dict` assignment `d[k] = v` on the velocity registry. -/
def ponerVelocidad (vel : List (String × Int)) (k : String) (v : Int) :
    List (String × Int) :=
  if vel.any (fun p => p.1 == k) then
    vel.map (fun p => if p.1 == k then (k, v) else p)
  else vel ++ [(k, v)]

/-- Python `self.velocidades_por_robot.get(k, 5.0)`. -/
def obtenerVelocidad (vel : List (String × Int)) (k : String) : Int :=
  (vel.lookup k).getD 5

/-- The duplicate/undeclared robot lookup
`any(s.id.lower() == rid.lower() and s.metodo == 'robot' for s in tabla)`. -/
def robotDeclarado (tabla : List Simbolo) (rid : String) : Bool :=
  tabla.any (fun s => toLowerStr s.id == toLowerStr rid && s.metodo == "robot")

/-- The out-of-range error message
`f"Valor fuera de rango para {comando}: {valor} (rango: {min}-{max})"`. -/
def msgFueraDeRango (comando : String) (valor mn mx : Int) : String :=
  "Valor fuera de rango para " ++ comando ++ ": " ++ toString valor ++
    " (rango: " ++ toString mn ++ "-" ++ toString mx ++ ")"

/-- `_actualizar_simbolo`: remove any row with the same
(case-insensitive) id and method, then append the new row. -/
def actualizarSimbolo (st : Estado) (robotId comando : String) (valor : Int) :
    Estado :=
  { st with tablaSimbolos :=
      (st.tablaSimbolos.filter (fun s =>
        !(toLowerStr s.id == toLowerStr robotId && toLowerStr s.metodo == toLowerStr comando)))
      ++ [⟨robotId, comando, 1, valor⟩] }

/-- `_procesar_cambio_velocidad`: reject a negative velocity (appending an
error but *not* aborting the caller), otherwise record the robot's new
velocity and emit a `SET_SPEED` quadruple. -/
def procesarCambioVelocidad (st : Estado) (robotId : String)
    (nuevaVelocidad : Int) : Estado :=
  if nuevaVelocidad < 0 then
    { st with errores := st.errores ++
        ["Velocidad no puede ser negativa: " ++ toString nuevaVelocidad] }
  else
    { st with
        velocidadesPorRobot :=
          ponerVelocidad st.velocidadesPorRobot (toLowerStr robotId) |nuevaVelocidad|,
        cuadruplos := st.cuadruplos ++
          [⟨"SET_SPEED", robotId, toString |nuevaVelocidad|,
            "speed_" ++ toString st.contadorCuadruplos⟩],
        contadorCuadruplos := st.contadorCuadruplos + 1 }

/-- `_procesar_movimiento_con_velocidad`: emit a `SET_SPEED` + `MOVE` pair. -/
def procesarMovimientoConVelocidad (st : Estado) (robotId comando : String)
    (valor velocidad : Int) : Estado :=
  { st with
      cuadruplos := st.cuadruplos ++
        [⟨"SET_SPEED", robotId, toString velocidad,
          "pre_speed_" ++ toString st.contadorCuadruplos⟩,
         ⟨"MOVE", robotId, toString valor, comando⟩],
      contadorCuadruplos := st.contadorCuadruplos + 1 }

/-- `_procesar_movimiento_negativo`: emit a `SET_SPEED` + `MOVE_NEG` pair. -/
def procesarMovimientoNegativo (st : Estado) (robotId comando : String)
    (valorNegativo velocidad : Int) : Estado :=
  { st with
      cuadruplos := st.cuadruplos ++
        [⟨"SET_SPEED", robotId, toString velocidad,
          "pre_speed_neg_" ++ toString st.contadorCuadruplos⟩,
         ⟨"MOVE_NEG", robotId, toString valorNegativo, comando⟩],
      contadorCuadruplos := st.contadorCuadruplos + 1 }

/-- Lines 285-307 of `_procesar_comando_robot`: parse `ID.comando` or
`ID.comando.negativo` into `(robot_id, comando_completo_normalizado,
es_negativo)`. -/
def parsearComando (cc : String) : Except String (String × String × Bool) :=
  if cc.data.count '.' = 1 then
    let partes := splitPunto cc
    Except.ok (partes.getD 0 "", toLowerStr (partes.getD 1 ""), false)
  else if cc.data.count '.' = 2 then
    let partes := splitPunto cc
    if partes.length = 3 && toLowerStr (partes.getD 2 "") == "negativo" then
      Except.ok (partes.getD 0 "", toLowerStr (partes.getD 1 "") ++ ".negativo", true)
    else Except.error ("Sintaxis inválida: \x27" ++ cc ++ "\x27")
  else
    Except.error ("Se esperaba ID.comando o ID.comando.negativo: \x27" ++ cc ++ "\x27")

/-- Lines 352-381 of `_procesar_comando_robot`: sign conversion, dispatch
to the velocity/movement emitters, and the symbol-table upsert. -/
def procesarAsignacion (st : Estado) (robotId norm : String)
    (esNegativo : Bool) (valor : Int) (i : Nat) : Estado × Option Nat :=
  let valorFinal := if esNegativo then -valor else valor
  let comandoReal := if esNegativo then (comandosNegativos norm).getD "" else norm
  let st1 :=
    if comandoReal = "velocidad" then
      procesarCambioVelocidad st robotId valorFinal
    else
      let velocidadActual := obtenerVelocidad st.velocidadesPorRobot (toLowerStr robotId)
      if esNegativo then
        procesarMovimientoNegativo st robotId comandoReal valorFinal velocidadActual
      else
        procesarMovimientoConVelocidad st robotId comandoReal valorFinal velocidadActual
  (actualizarSimbolo st1 robotId comandoReal valorFinal, some (i + 3))

/-- `_procesar_comando_robot`: a plain command assignment
`ID.comando[.negativo] = valor` at cursor `i` (bounds `i + 2 < len`
guaranteed by the dispatcher).  Returns the new state and `some` new
cursor, or `none` after appending one error. -/
def procesarComandoRobot (palabras : List String) (i : Nat) (st : Estado) :
    Estado × Option Nat :=
  let comandoCompleto := palabras.getD i ""
  let operador := palabras.getD (i + 1) ""
  let valorStr := palabras.getD (i + 2) ""
  match parsearComando comandoCompleto with
  | Except.error e => ({ st with errores := st.errores ++ [e] }, none)
  | Except.ok (robotId, norm, esNegativo) =>
    if operador ≠ "=" then
      ({ st with errores := st.errores ++
          ["Se esperaba \x27=\x27 después del comando: \x27" ++ operador ++ "\x27"] },
       none)
    else if ¬ robotDeclarado st.tablaSimbolos robotId then
      ({ st with errores := st.errores ++
          ["Robot no declarado: \x27" ++ robotId ++ "\x27"] }, none)
    else if ¬ comandos.contains norm then
      ({ st with errores := st.errores ++
          ["Comando inválido: \x27" ++ norm ++ "\x27"] }, none)
    else if ¬ patronValor valorStr then
      ({ st with errores := st.errores ++
          ["Valor numérico inválido: \x27" ++ valorStr ++ "\x27"] }, none)
    else
      let valor := valorNumerico valorStr
      match rangos norm with
      | some (mn, mx) =>
        if ¬ (mn ≤ valor ∧ valor ≤ mx) then
          ({ st with errores := st.errores ++ [msgFueraDeRango norm valor mn mx] },
           none)
        else procesarAsignacion st robotId norm esNegativo valor i
      | none => procesarAsignacion st robotId norm esNegativo valor i

/-- `_procesar_declaracion_robot`: `Robot <ID>` at cursor `i`. -/
def procesarDeclaracionRobot (palabras : List String) (i : Nat) (st : Estado) :
    Estado × Option Nat :=
  if i + 1 ≥ palabras.length then
    ({ st with errores := st.errores ++ ["Falta identificador tras \x27Robot\x27"] },
     none)
  else
    let robotId := palabras.getD (i + 1) ""
    if ¬ patronId robotId then
      ({ st with errores := st.errores ++
          ["Identificador inválido: \x27" ++ robotId ++ "\x27"] }, none)
    else if robotDeclarado st.tablaSimbolos robotId then
      ({ st with errores := st.errores ++
          ["Robot ya declarado: \x27" ++ robotId ++ "\x27"] }, none)
    else
      ({ st with
          velocidadesPorRobot := ponerVelocidad st.velocidadesPorRobot (toLowerStr robotId) 5,
          tablaSimbolos := st.tablaSimbolos ++ [⟨robotId, "robot", 0, 0⟩],
          cuadruplos := st.cuadruplos ++ [⟨"CREATE", "Robot", "—", robotId⟩] },
       some (i + 2))

/-- Lines 556-584 of `_analizar_bloque_con_velocidades_y_negativos`:
parse one block statement head into
`(bloque_robot_id, comando_normalizado, comando_real, es_negativo)`;
a parse failure is a raised exception. -/
def parsearComandoBloque (cc : String) :
    Except String (String × String × String × Bool) :=
  if cc.data.count '.' = 2 then
    if terminaCon (toLowerStr cc) ".negativo" then
      let partes := splitPunto cc
      if partes.length = 3 then
        Except.ok (partes.getD 0 "",
          toLowerStr (partes.getD 1 "") ++ ".negativo", toLowerStr (partes.getD 1 ""), true)
      else Except.error ("Sintaxis inválida en bloque: " ++ cc)
    else Except.error ("Sintaxis inválida en bloque: " ++ cc)
  else if cc.data.count '.' = 1 then
    let partes := splitPunto cc
    if partes.length = 2 then
      Except.ok (partes.getD 0 "",
        toLowerStr (partes.getD 1 ""), toLowerStr (partes.getD 1 ""), false)
    else Except.error ("Sintaxis inválida en bloque: " ++ cc)
  else Except.error ("Sintaxis inválida en bloque: " ++ cc)

/-- Lines 610-631 of `_analizar_bloque_con_velocidades_y_negativos`: sign
conversion and dispatch to the velocity/movement emitters for one block
statement (the in-block negative-velocity guard included). -/
def pasoBloqueEmitirCon (bloqueRobotId comandoReal : String) (esNegativo : Bool)
    (valorFinal : Int) (st : Estado) : Except String Estado :=
  if comandoReal = "velocidad" then
    if valorFinal < 0 then
      Except.error ("Velocidad no puede ser negativa en bloque: " ++
        toString valorFinal)
    else Except.ok (procesarCambioVelocidad st bloqueRobotId |valorFinal|)
  else
    let velocidadActual :=
      obtenerVelocidad st.velocidadesPorRobot (toLowerStr bloqueRobotId)
    if esNegativo then
      Except.ok (procesarMovimientoNegativo st bloqueRobotId comandoReal
        valorFinal velocidadActual)
    else
      Except.ok (procesarMovimientoConVelocidad st bloqueRobotId comandoReal
        valorFinal velocidadActual)

/-- Sign conversion (`valor_final = -valor` under `.negativo`) feeding the
in-block emitter. -/
def pasoBloqueEmitir (bloqueRobotId comandoReal : String) (esNegativo : Bool)
    (valor : Int) (st : Estado) : Except String Estado :=
  pasoBloqueEmitirCon bloqueRobotId comandoReal esNegativo
    (if esNegativo then -valor else valor) st

/-- One 3-token statement of a repeat-block body (the validations and
emission of lines 556-631; `Except.error` models a raised exception). -/
def pasoBloque (robotId cc operador valorStr : String) (st : Estado) :
    Except String Estado :=
  match parsearComandoBloque cc with
  | Except.error e => Except.error e
  | Except.ok (bloqueRobotId, norm, comandoReal, esNegativo) =>
    if operador ≠ "=" then
      Except.error ("Se esperaba \x27=\x27 en bloque: " ++ cc ++ " " ++ operador)
    else if ¬ patronValor valorStr then
      Except.error ("Valor inválido en bloque: " ++ valorStr)
    else if ¬ comandos.contains norm then
      Except.error ("Comando inválido en bloque: " ++ norm)
    else if norm = "repetir" then
      Except.error "No se permite repetir anidado"
    else if toLowerStr bloqueRobotId ≠ toLowerStr robotId then
      Except.error ("Robot diferente en bloque: " ++ bloqueRobotId ++
        " (esperado: " ++ robotId ++ ")")
    else
      match rangos norm with
      | some (mn, mx) =>
        if ¬ (mn ≤ valorNumerico valorStr ∧ valorNumerico valorStr ≤ mx) then
          Except.error ("Valor fuera de rango en bloque: " ++ norm ++ " = " ++
            toString (valorNumerico valorStr) ++ " (rango: " ++ toString mn ++
            "-" ++ toString mx ++ ")")
        else pasoBloqueEmitir bloqueRobotId comandoReal esNegativo
          (valorNumerico valorStr) st
      | none => pasoBloqueEmitir bloqueRobotId comandoReal esNegativo
          (valorNumerico valorStr) st

/-- The `while` loop of `_analizar_bloque_con_velocidades_y_negativos`:
walks the block body; a token without `.` is skipped (cursor `+1`),
otherwise a 3-token statement is processed (cursor `+3`); fewer than
three remaining tokens end the loop.  Returns the final state and the
number of processed commands (`comandos_bloque`). -/
def bloqueLoop (robotId : String) :
    List String → Estado → Nat → Except String (Estado × Nat)
  | cc :: operador :: valorStr :: rest, st, n =>
    if ¬ cc.data.contains '.' then
      bloqueLoop robotId (operador :: valorStr :: rest) st n
    else
      match pasoBloque robotId cc operador valorStr st with
      | Except.error e => Except.error e
      | Except.ok st' => bloqueLoop robotId rest st' (n + 1)
  | _, st, n => Except.ok (st, n)

/-- `_analizar_bloque_con_velocidades_y_negativos`: run the body loop and
raise on an empty block (zero processed commands). -/
def analizarBloque (bloque : List String) (robotId : String) (st : Estado) :
    Except String Estado :=
  match bloqueLoop robotId bloque st 0 with
  | Except.error e => Except.error e
  | Except.ok (st', n) =>
    if n = 0 then Except.error "Bloque de repetición vacío" else Except.ok st'

/-- The brace scan of `_procesar_repetir` (lines 481-494): starting just
after the opening brace at nesting level 1, collect tokens while the
level stays positive.  Returns `(bloque, tokens consumed, final level)`. -/
def scanBloque : List String → Nat → List String × Nat × Nat
  | _, 0 => ([], 0, 0)
  | [], nivel + 1 => ([], 0, nivel + 1)
  | w :: rest, nivel + 1 =>
    let nivel2 := if w = "\x7b" then nivel + 2
      else if w = "\x7d" then nivel else nivel + 1
    let r := scanBloque rest nivel2
    ((if 0 < nivel2 then w :: r.1 else r.1), r.2.1 + 1, r.2.2)

/-- `_procesar_repetir`: the repeat block `ID.repetir = N { ... }` at
cursor `i` (the dispatcher guarantees `i + 3 < len`). -/
def procesarRepetir (palabras : List String) (i : Nat) (st : Estado) :
    Estado × Option Nat :=
  let comandoCompleto := palabras.getD i ""
  let operador := palabras.getD (i + 1) ""
  let valorStr := palabras.getD (i + 2) ""
  let llaveAbre := palabras.getD (i + 3) ""
  let partes := splitPunto comandoCompleto
  if ¬ (partes.length = 2 ∧ toLowerStr (partes.getD 1 "") = "repetir") then
    ({ st with errores := st.errores ++
        ["Se esperaba ID.repetir: \x27" ++ comandoCompleto ++ "\x27"] }, none)
  else
    let robotId := partes.getD 0 ""
    if operador ≠ "=" ∨ llaveAbre ≠ "\x7b" then
      ({ st with errores := st.errores ++ ["Sintaxis incorrecta en repetir"] }, none)
    else if ¬ patronValor valorStr then
      ({ st with errores := st.errores ++
          ["Valor de repetición inválido: \x27" ++ valorStr ++ "\x27"] }, none)
    else
      let repeticiones := valorNumerico valorStr
      let rangoRep := (rangos "repetir").getD (0, 0)
      if ¬ (rangoRep.1 ≤ repeticiones ∧ repeticiones ≤ rangoRep.2) then
        ({ st with errores := st.errores ++
            ["Repeticiones fuera de rango: " ++ toString repeticiones ++
              " (rango: " ++ toString rangoRep.1 ++ "-" ++ toString rangoRep.2 ++ ")"] },
         none)
      else
        let scan := scanBloque (palabras.drop (i + 4)) 1
        let bloque := scan.1
        let j := i + 4 + scan.2.1
        if 0 < scan.2.2 then
          ({ st with errores := st.errores ++
              ["Falta \x27\x7d\x27 para cerrar el bloque de repetición"] }, none)
        else
          let loopId := "loop" ++ toString st.contadorCuadruplos
          let st2 := { st with
            contadorCuadruplos := st.contadorCuadruplos + 1,
            cuadruplos := st.cuadruplos ++
              [⟨"BEGIN_LOOP", toString repeticiones, "—", loopId⟩] }
          match analizarBloque bloque robotId st2 with
          | Except.error e =>
            ({ st2 with errores := st2.errores ++
                ["Error en bloque de repetición: " ++ e] }, none)
          | Except.ok st3 =>
            ({ st3 with cuadruplos := st3.cuadruplos ++
                [⟨"END_LOOP", loopId, toString repeticiones, "—"⟩] }, some j)

/-- The dispatcher `while` loop of `_analizar_codigo_completo`
(lines 161-217), with an explicit fuel argument (each iteration strictly
advances the cursor, so `palabras.length + 1` fuel is never exhausted). -/
def mainLoop (palabras : List String) : Nat → Nat → Estado → Estado
  | 0, _, st => st
  | fuel + 1, i, st =>
    if i < palabras.length then
      let w := palabras.getD i ""
      if ¬ lexToken w then
        { st with errores := st.errores ++
            ["Token inválido: \x27" ++ w ++ "\x27"] }
      else if toLowerStr w = "robot" then
        match procesarDeclaracionRobot palabras i st with
        | (st', some i') => mainLoop palabras fuel i' st'
        | (st', none) => st'
      else if w.data.contains '.' ∧ i + 2 < palabras.length then
        if i + 3 < palabras.length ∧ terminaCon (toLowerStr w) ".repetir" = true ∧
            palabras.getD (i + 1) "" = "=" ∧ palabras.getD (i + 3) "" = "\x7b" then
          match procesarRepetir palabras i st with
          | (st', some i') => mainLoop palabras fuel i' st'
          | (st', none) => st'
        else
          match procesarComandoRobot palabras i st with
          | (st', some i') => mainLoop palabras fuel i' st'
          | (st', none) => st'
      else
        { st with errores := st.errores ++
            ["Expresión incompleta o inválida: \x27" ++ w ++ "\x27"] }
    else st

/-- Python `entrada.split()`: split on whitespace, dropping empty words. -/
def splitWhitespace (s : String) : List String :=
  palabrasAux s.data []

/-- A freshly constructed `AnalizadorLexico` instance's mutable state. -/
def estadoInicial : Estado := ⟨[], [], 0, [], []⟩

/-- `analizar` on an instance whose mutable state is `prev`: lines 94-98
clear every mutable field, then `_analizar_codigo_completo` runs and the
result dictionary is built (`exito = len(errores) == 0`).  Returns the
result together with the instance state left behind for the next call. -/
def analizarInst (prev : Estado) (entrada : String) : Resultado × Estado :=
  let st0 : Estado := { prev with
    tablaSimbolos := [], cuadruplos := [], errores := [],
    contadorCuadruplos := 0, velocidadesPorRobot := [] }
  let palabras := splitWhitespace entrada
  let stF :=
    if palabras = [] then { st0 with errores := st0.errores ++ ["Código vacío"] }
    else mainLoop palabras (palabras.length + 1) 0 st0
  (⟨stF.errores.isEmpty, stF.tablaSimbolos, stF.cuadruplos, stF.errores⟩, stF)

/-- `analizar` on a fresh instance. -/
def analizar (entrada : String) : Resultado :=
  (analizarInst estadoInicial entrada).1

/-- The quadruple operators a repeat-block body can emit (its statements
are velocity changes and positive/negative movements only). -/
def opPermitida (q : Cuadruplo) : Prop :=
  q.operador = "SET_SPEED" ∨ q.operador = "MOVE" ∨ q.operador = "MOVE_NEG"

instance (q : Cuadruplo) : Decidable (opPermitida q) := by
  unfold opPermitida; infer_instance

/-- The instance state right after analyzing `"Robot R1"`: robot `R1`
declared, its `CREATE` quadruple emitted, default velocity registered. -/
def estadoConR1 : Estado :=
  ⟨[⟨"R1", "robot", 0, 0⟩], [⟨"CREATE", "Robot", "—", "R1"⟩], 0, [], [("r1", 5)]⟩

/-! ## Theorems about the embedded analyzer -/

/-- C9: no state leaks between invocations of `analizar` on the same
analyzer instance: every mutable field is cleared on entry (lines 94-98),
so the result depends only on the input string — two calls with the same
input agree regardless of the instance's prior state, including the state
left behind by analyses of arbitrary other inputs in between. -/
theorem claim_C9_sin_fuga_de_estado :
    (∀ (s₁ s₂ : Estado) (entrada : String),
      (analizarInst s₁ entrada).1 = (analizarInst s₂ entrada).1) ∧
    (∀ (s : Estado) (otra entrada : String),
      (analizarInst ((analizarInst s otra).2) entrada).1 = analizar entrada) := by
  exact ⟨fun _ _ _ => rfl, fun _ _ _ => rfl⟩

/-- C7: the spec's worked example.  `"Robot R1 R1.velocidad = 5 R1.base = 90"`
succeeds; the symbol table contains `{R1, robot, 0, 0}` and `{R1, base, 1, 90}`;
the quadruples begin with `CREATE(Robot, —, R1)`, contain a `SET_SPEED`
carrying velocity 5, and end with a consecutive `SET_SPEED` + `MOVE(R1, 90,
base)` pair for the `base` assignment. -/
theorem claim_C7_ejemplo_velocidad_base :
    (analizar "Robot R1 R1.velocidad = 5 R1.base = 90").exito = true ∧
    (⟨"R1", "robot", 0, 0⟩ : Simbolo) ∈
      (analizar "Robot R1 R1.velocidad = 5 R1.base = 90").tablaSimbolos ∧
    (⟨"R1", "base", 1, 90⟩ : Simbolo) ∈
      (analizar "Robot R1 R1.velocidad = 5 R1.base = 90").tablaSimbolos ∧
    (analizar "Robot R1 R1.velocidad = 5 R1.base = 90").cuadruplos =
      [⟨"CREATE", "Robot", "—", "R1"⟩,
       ⟨"SET_SPEED", "R1", "5", "speed_0"⟩,
       ⟨"SET_SPEED", "R1", "5", "pre_speed_1"⟩,
       ⟨"MOVE", "R1", "90", "base"⟩] := by
  refine ⟨rfl, ?_, ?_, rfl⟩ <;> decide

/-- C3 (divergence evidence): on `"Robot R1 R1.repetir = 5"` — a plain
`repetir` assignment with no block header — the code *accepts* the input:
`repetir` passes the command-vocabulary check of `_procesar_comando_robot`
and is processed as a movement, emitting a `SET_SPEED` + `MOVE(R1, 5,
repetir)` pair and the symbol `{R1, repetir, 1, 5}`, with `success = true`;
the claim (and §4.4 of the spec) say it must be rejected with a
`SemanticError`. -/
theorem claim_C3_repetir_plano_aceptado :
    (analizar "Robot R1 R1.repetir = 5").exito = true ∧
    (analizar "Robot R1 R1.repetir = 5").cuadruplos =
      [⟨"CREATE", "Robot", "—", "R1"⟩,
       ⟨"SET_SPEED", "R1", "5", "pre_speed_0"⟩,
       ⟨"MOVE", "R1", "5", "repetir"⟩] ∧
    (⟨"R1", "repetir", 1, 5⟩ : Simbolo) ∈
      (analizar "Robot R1 R1.repetir = 5").tablaSimbolos ∧
    (analizar "Robot R1 R1.repetir = 5").errores = [] := by
  refine ⟨rfl, rfl, ?_, rfl⟩; decide

/-- C4 (divergence evidence): on `"R1.repetir = 2 { R1.base = 10 }"` with no
preceding `Robot R1`, `_procesar_repetir` performs *no* declaration check,
so the analysis succeeds (`success = true`) with an empty symbol table (no
`CREATE` was ever emitted for `R1`), contradicting the claim (and §4.5 of
the spec) that an undeclared header robot is a `SemanticError`. -/
theorem claim_C4_repetir_sin_declaracion_aceptado :
    (analizar "R1.repetir = 2 \x7b R1.base = 10 \x7d").exito = true ∧
    (analizar "R1.repetir = 2 \x7b R1.base = 10 \x7d").tablaSimbolos = [] ∧
    (analizar "R1.repetir = 2 \x7b R1.base = 10 \x7d").cuadruplos =
      [⟨"BEGIN_LOOP", "2", "—", "loop0"⟩,
       ⟨"SET_SPEED", "R1", "5", "pre_speed_1"⟩,
       ⟨"MOVE", "R1", "10", "base"⟩,
       ⟨"END_LOOP", "loop0", "2", "—"⟩] ∧
    (analizar "R1.repetir = 2 \x7b R1.base = 10 \x7d").errores = [] := by
  exact ⟨rfl, rfl, rfl, rfl⟩

/-- C2 counterexample: the claim says `R1.velocidad = v` succeeds for every
`v` with `1 ≤ v ≤ 100`, but the configured range of `velocidad` is `(1, 60)`,
so `v = 61` (which the claim requires to succeed) is rejected with the
out-of-range error. -/
theorem claim_C2_counterexample :
    (1 ≤ 61 ∧ 61 ≤ 100) ∧
    (analizar "Robot R1 R1.velocidad = 61").exito = false ∧
    (analizar "Robot R1 R1.velocidad = 61").errores =
      [msgFueraDeRango "velocidad" 61 1 60] := by
  exact ⟨⟨by norm_num, by norm_num⟩, rfl, rfl⟩

/-- C5 counterexample: in `"Robot R1 R1.base = 9#"` the token `9#` contains
`#`, outside the lexical class, yet the analysis reports the *semantic*
error `Valor numérico inválido: '9#'` — not the lexical `Token inválido`
error the claim requires — because the value token is consumed as handler
lookahead and never lexically validated. -/
theorem claim_C5_counterexample :
    (analizar "Robot R1 R1.base = 9#").errores =
      ["Valor numérico inválido: \x279#\x27"] ∧
    lexToken "9#" = false ∧
    (analizar "Robot R1 R1.base = 9#").exito = false := by
  exact ⟨rfl, rfl, rfl⟩

/-! ### Helper lemmas about the handlers -/

theorem comandosNegativos_getD_ne_velocidad (s : String) :
    (comandosNegativos s).getD "" ≠ "velocidad" := by
  unfold comandosNegativos
  split_ifs <;> decide

theorem valorNumerico_nonneg (s : String) : 0 ≤ valorNumerico s :=
  Int.natCast_nonneg _

/-- `_procesar_cambio_velocidad` on a non-negative velocity: no error is
appended and exactly one `SET_SPEED` quadruple is emitted. -/
theorem procesarCambioVelocidad_spec (st : Estado) (robotId : String)
    (v : Int) (hv : 0 ≤ v) :
    (procesarCambioVelocidad st robotId v).errores = st.errores ∧
    (procesarCambioVelocidad st robotId v).cuadruplos =
      st.cuadruplos ++ [⟨"SET_SPEED", robotId, toString |v|,
        "speed_" ++ toString st.contadorCuadruplos⟩] := by
  unfold procesarCambioVelocidad
  rw [if_neg (by omega : ¬ v < 0)]
  exact ⟨rfl, rfl⟩

/-- Lines 352-381 of `_procesar_comando_robot` (`procesarAsignacion`) with
a non-negative parsed value: always succeeds with cursor `i + 3`, appends
no error, and emits a non-empty list of velocity/movement quadruples. -/
theorem procesarAsignacion_spec (st : Estado) (robotId norm : String)
    (esNegativo : Bool) (valor : Int) (i : Nat) (hv : 0 ≤ valor) :
    (procesarAsignacion st robotId norm esNegativo valor i).2 = some (i + 3) ∧
    (procesarAsignacion st robotId norm esNegativo valor i).1.errores = st.errores ∧
    ∃ a : List Cuadruplo, a ≠ [] ∧
      (procesarAsignacion st robotId norm esNegativo valor i).1.cuadruplos =
        st.cuadruplos ++ a ∧
      ∀ q ∈ a, opPermitida q := by
  refine ⟨rfl, ?_⟩
  cases esNegativo with
  | true =>
    simp only [procesarAsignacion, if_true]
    rw [if_neg (comandosNegativos_getD_ne_velocidad norm)]
    refine ⟨rfl,
      ⟨[⟨"SET_SPEED", robotId,
          toString (obtenerVelocidad st.velocidadesPorRobot (toLowerStr robotId)),
          "pre_speed_neg_" ++ toString st.contadorCuadruplos⟩,
        ⟨"MOVE_NEG", robotId, toString (-valor), (comandosNegativos norm).getD ""⟩],
        by simp, rfl, ?_⟩⟩
    intro q hq
    simp only [List.mem_cons, List.not_mem_nil, or_false] at hq
    rcases hq with rfl | rfl <;> simp [opPermitida]
  | false =>
    by_cases hn : norm = "velocidad"
    · subst hn
      simp only [procesarAsignacion, if_neg (show ¬ false = true by decide), if_true]
      obtain ⟨he, hc⟩ := procesarCambioVelocidad_spec st robotId valor hv
      refine ⟨?_,
        ⟨[⟨"SET_SPEED", robotId, toString |valor|,
            "speed_" ++ toString st.contadorCuadruplos⟩], by simp, ?_, ?_⟩⟩
      · simpa [actualizarSimbolo] using he
      · simpa [actualizarSimbolo] using hc
      · intro q hq
        simp only [List.mem_cons, List.not_mem_nil, or_false] at hq
        subst hq; simp [opPermitida]
    · simp only [procesarAsignacion, if_neg (show ¬ false = true by decide), if_neg hn]
      refine ⟨rfl,
        ⟨[⟨"SET_SPEED", robotId,
            toString (obtenerVelocidad st.velocidadesPorRobot (toLowerStr robotId)),
            "pre_speed_" ++ toString st.contadorCuadruplos⟩,
          ⟨"MOVE", robotId, toString valor, norm⟩], by simp, rfl, ?_⟩⟩
      intro q hq
      simp only [List.mem_cons, List.not_mem_nil, or_false] at hq
      rcases hq with rfl | rfl <;> simp [opPermitida]

theorem procesarAsignacion_snd (st : Estado) (rid norm : String) (neg : Bool)
    (valor : Int) (i : Nat) :
    (procesarAsignacion st rid norm neg valor i).2 = some (i + 3) := rfl

theorem procesarAsignacion_eq_some (st st' : Estado) (rid norm : String)
    (neg : Bool) (valor : Int) (i j : Nat) (hv : 0 ≤ valor)
    (h : procesarAsignacion st rid norm neg valor i = (st', some j)) :
    st'.errores = st.errores ∧ j = i + 3 ∧
    ∃ a : List Cuadruplo, a ≠ [] ∧ st'.cuadruplos = st.cuadruplos ++ a ∧
      ∀ q ∈ a, opPermitida q := by
  obtain ⟨h2, he, a, hne, hc, hall⟩ := procesarAsignacion_spec st rid norm neg valor i hv
  rw [h] at h2 he hc
  refine ⟨he, ?_, a, hne, hc, hall⟩
  have h3 : some j = some (i + 3) := h2
  injection h3

/-- `_procesar_comando_robot` on success: no error appended, cursor
advanced by 3, and a non-empty list of velocity/movement quadruples
appended. -/
theorem procesarComandoRobot_some (palabras : List String) (i : Nat)
    (st st' : Estado) (j : Nat)
    (h : procesarComandoRobot palabras i st = (st', some j)) :
    st'.errores = st.errores ∧ j = i + 3 ∧
    ∃ a : List Cuadruplo, a ≠ [] ∧ st'.cuadruplos = st.cuadruplos ++ a ∧
      ∀ q ∈ a, opPermitida q := by
  simp only [procesarComandoRobot] at h
  split at h <;> try split_ifs at h <;> try split at h <;> try split_ifs at h
  all_goals
    first
    | exact Option.noConfusion (congrArg Prod.snd h)
    | exact procesarAsignacion_eq_some _ _ _ _ _ _ _ _ (valorNumerico_nonneg _) h

/-- `_procesar_comando_robot` on failure: exactly one error appended. -/
theorem procesarComandoRobot_none (palabras : List String) (i : Nat)
    (st st' : Estado)
    (h : procesarComandoRobot palabras i st = (st', none)) :
    ∃ e, st'.errores = st.errores ++ [e] := by
  simp only [procesarComandoRobot] at h
  split at h <;> try split_ifs at h <;> try split at h <;> try split_ifs at h
  all_goals
    first
    | (injection h with h1 h2; exact Option.noConfusion h2)
    | (injection h with h1 h2; subst h1; exact ⟨_, rfl⟩)

/-- `_procesar_declaracion_robot` on success leaves the error list alone. -/
theorem procesarDeclaracionRobot_some (palabras : List String) (i : Nat)
    (st st' : Estado) (j : Nat)
    (h : procesarDeclaracionRobot palabras i st = (st', some j)) :
    st'.errores = st.errores := by
  simp only [procesarDeclaracionRobot] at h
  split_ifs at h <;>
    first
    | exact Option.noConfusion (congrArg Prod.snd h)
    | (injection h with h1 h2; subst h1; rfl)

/-- `_procesar_declaracion_robot` on failure appends exactly one error. -/
theorem procesarDeclaracionRobot_none (palabras : List String) (i : Nat)
    (st st' : Estado)
    (h : procesarDeclaracionRobot palabras i st = (st', none)) :
    ∃ e, st'.errores = st.errores ++ [e] := by
  simp only [procesarDeclaracionRobot] at h
  split_ifs at h <;>
    first
    | (injection h with h1 h2; exact Option.noConfusion h2)
    | (injection h with h1 h2; subst h1; exact ⟨_, rfl⟩)

/-- The in-block emitter, when it does not raise: no error appended and a
non-empty list of velocity/movement quadruples emitted. -/
theorem pasoBloqueEmitirCon_ok (bloqueRobotId comandoReal : String)
    (esNegativo : Bool) (valorFinal : Int) (st st' : Estado)
    (h : pasoBloqueEmitirCon bloqueRobotId comandoReal esNegativo valorFinal st =
      Except.ok st') :
    st'.errores = st.errores ∧
    ∃ a : List Cuadruplo, a ≠ [] ∧ st'.cuadruplos = st.cuadruplos ++ a ∧
      ∀ q ∈ a, opPermitida q := by
  unfold pasoBloqueEmitirCon at h
  split_ifs at h
  all_goals injection h with h1
  all_goals subst h1
  · obtain ⟨he, hc⟩ :=
      procesarCambioVelocidad_spec st bloqueRobotId _ (abs_nonneg valorFinal)
    refine ⟨he, [_], by simp, hc, ?_⟩
    intro q hq
    simp only [List.mem_cons, List.not_mem_nil, or_false] at hq
    subst hq
    exact Or.inl rfl
  · refine ⟨rfl, [_, _], by simp, rfl, ?_⟩
    intro q hq
    simp only [List.mem_cons, List.not_mem_nil, or_false] at hq
    rcases hq with rfl | rfl
    · exact Or.inl rfl
    · exact Or.inr (Or.inr rfl)
  · refine ⟨rfl, [_, _], by simp, rfl, ?_⟩
    intro q hq
    simp only [List.mem_cons, List.not_mem_nil, or_false] at hq
    rcases hq with rfl | rfl
    · exact Or.inl rfl
    · exact Or.inr (Or.inl rfl)

/-- One repeat-block statement, when it does not raise: no error appended
and a non-empty list of velocity/movement quadruples emitted. -/
theorem pasoBloque_ok (robotId cc operador valorStr : String) (st st' : Estado)
    (h : pasoBloque robotId cc operador valorStr st = Except.ok st') :
    st'.errores = st.errores ∧
    ∃ a : List Cuadruplo, a ≠ [] ∧ st'.cuadruplos = st.cuadruplos ++ a ∧
      ∀ q ∈ a, opPermitida q := by
  unfold pasoBloque at h
  split at h <;> try split_ifs at h <;> try split at h <;> try split_ifs at h
  all_goals
    first
    | exact Except.noConfusion h
    | exact pasoBloqueEmitirCon_ok _ _ _ _ _ _ h

/-- The block-body loop, when it finishes without raising: no error
appended, only velocity/movement quadruples emitted, and quadruples are
emitted whenever the command counter advanced.  (Stated with an explicit
length bound to drive the induction.) -/
theorem bloqueLoop_ok (robotId : String) :
    ∀ (N : Nat) (b : List String), b.length ≤ N →
    ∀ (st : Estado) (n : Nat) (st' : Estado) (n' : Nat),
      bloqueLoop robotId b st n = Except.ok (st', n') →
      st'.errores = st.errores ∧
      ∃ a : List Cuadruplo, st'.cuadruplos = st.cuadruplos ++ a ∧
        (∀ q ∈ a, opPermitida q) ∧ (a = [] → n' = n) := by
  intro N
  induction N with
  | zero =>
    intro b hb st n st' n' h
    have hbe : b = [] := List.length_eq_zero.mp (Nat.le_zero.mp hb)
    subst hbe
    have h' : Except.ok (ε := String) (st, n) = Except.ok (st', n') := h
    injection h' with h1
    injection h1 with h2 h3
    subst h2; subst h3
    exact ⟨rfl, [], by simp, by simp, fun _ => rfl⟩
  | succ N ih =>
    intro b hb st n st' n' h
    rcases b with _ | ⟨cc, _ | ⟨operador, _ | ⟨valorStr, rest⟩⟩⟩
    · have h' : Except.ok (ε := String) (st, n) = Except.ok (st', n') := h
      injection h' with h1
      injection h1 with h2 h3
      subst h2; subst h3
      exact ⟨rfl, [], by simp, by simp, fun _ => rfl⟩
    · have h' : Except.ok (ε := String) (st, n) = Except.ok (st', n') := h
      injection h' with h1
      injection h1 with h2 h3
      subst h2; subst h3
      exact ⟨rfl, [], by simp, by simp, fun _ => rfl⟩
    · have h' : Except.ok (ε := String) (st, n) = Except.ok (st', n') := h
      injection h' with h1
      injection h1 with h2 h3
      subst h2; subst h3
      exact ⟨rfl, [], by simp, by simp, fun _ => rfl⟩
    · simp only [List.length_cons] at hb
      unfold bloqueLoop at h
      split at h
      · exact ih (operador :: valorStr :: rest) (by simp; omega) st n st' n' h
      · split at h
        · exact Except.noConfusion h
        · rename_i st1 hpaso
          obtain ⟨he1, a1, hne1, hc1, hall1⟩ := pasoBloque_ok _ _ _ _ _ _ hpaso
          obtain ⟨he2, a2, hc2, hall2, hemp2⟩ :=
            ih rest (by omega) st1 (n + 1) st' n' h
          refine ⟨he2.trans he1, a1 ++ a2, ?_, ?_, ?_⟩
          · rw [hc2, hc1, List.append_assoc]
          · intro q hq
            rcases List.mem_append.mp hq with hq | hq
            exacts [hall1 q hq, hall2 q hq]
          · intro hnil
            exact absurd (List.append_eq_nil.mp hnil).1 hne1

/-- `_analizar_bloque_con_velocidades_y_negativos`, when it does not
raise: no error appended and a *non-empty* list of velocity/movement
quadruples emitted (the empty-block case raises). -/
theorem analizarBloque_ok (bloque : List String) (robotId : String)
    (st st' : Estado)
    (h : analizarBloque bloque robotId st = Except.ok st') :
    st'.errores = st.errores ∧
    ∃ a : List Cuadruplo, a ≠ [] ∧ st'.cuadruplos = st.cuadruplos ++ a ∧
      ∀ q ∈ a, opPermitida q := by
  unfold analizarBloque at h
  split at h
  · exact Except.noConfusion h
  · rename_i st1 n heq
    split_ifs at h with hn
    injection h with h1
    subst h1
    obtain ⟨he, a, hc, hall, hemp⟩ :=
      bloqueLoop_ok robotId bloque.length bloque le_rfl st 0 st1 n heq
    exact ⟨he, a, fun hnil => hn (hemp hnil), hc, hall⟩

/-- `_procesar_repetir` on success: no error appended, and the quadruples
gain a segment `BEGIN_LOOP(reps, —, loopId)` / body / `END_LOOP(loopId,
reps, —)` where the body is non-empty, consists only of velocity/movement
quadruples, and `reps ∈ [1, 100]`. -/
theorem procesarRepetir_some (palabras : List String) (i : Nat)
    (st st' : Estado) (j : Nat)
    (h : procesarRepetir palabras i st = (st', some j)) :
    st'.errores = st.errores ∧
    ∃ (reps : Int) (loopId : String) (a : List Cuadruplo),
      1 ≤ reps ∧ reps ≤ 100 ∧ a ≠ [] ∧ (∀ q ∈ a, opPermitida q) ∧
      st'.cuadruplos = st.cuadruplos ++
        ([⟨"BEGIN_LOOP", toString reps, "—", loopId⟩] ++ a ++
          [⟨"END_LOOP", loopId, toString reps, "—"⟩]) := by
  simp only [procesarRepetir] at h
  split_ifs at h
  all_goals try exact Option.noConfusion (congrArg Prod.snd h)
  split at h
  · exact Option.noConfusion (congrArg Prod.snd h)
  · rename_i st3 heq
    injection h with h1 h2
    subst h1
    rename_i hparse hsyn hval hrango hscan hx
    obtain ⟨he, a, hne, hc, hall⟩ := analizarBloque_ok _ _ _ _ heq
    refine ⟨he, valorNumerico (palabras.getD (i + 2) ""),
      "loop" ++ toString st.contadorCuadruplos, a, hrango.1, hrango.2,
      hne, hall, ?_⟩
    show st3.cuadruplos ++ _ = _
    rw [hc]
    simp [List.append_assoc]

/-- `_procesar_repetir` on failure: exactly one error appended. -/
theorem procesarRepetir_none (palabras : List String) (i : Nat)
    (st st' : Estado)
    (h : procesarRepetir palabras i st = (st', none)) :
    ∃ e, st'.errores = st.errores ++ [e] := by
  simp only [procesarRepetir] at h
  split_ifs at h
  all_goals try (injection h with h1 h2; subst h1; exact ⟨_, rfl⟩)
  split at h
  · injection h with h1 h2
    subst h1
    exact ⟨_, rfl⟩
  · injection h with h1 h2
    exact Option.noConfusion h2

/-- The dispatcher loop appends at most one error: every handler failure
appends exactly one message and stops, every success leaves the error
list unchanged and continues. -/
theorem mainLoop_errores (palabras : List String) :
    ∀ (fuel i : Nat) (st : Estado),
      (mainLoop palabras fuel i st).errores = st.errores ∨
      ∃ e, (mainLoop palabras fuel i st).errores = st.errores ++ [e] := by
  intro fuel
  induction fuel with
  | zero => intro i st; exact Or.inl rfl
  | succ fuel ih =>
    intro i st
    simp only [mainLoop]
    split
    · split
      · exact Or.inr ⟨_, rfl⟩
      · split
        · split
          · rename_i st' i' heq
            rcases ih i' st' with h1 | ⟨e, h1⟩ <;>
              rw [h1, procesarDeclaracionRobot_some _ _ _ _ _ heq]
            · exact Or.inl rfl
            · exact Or.inr ⟨e, rfl⟩
          · rename_i st' heq
            exact Or.inr (procesarDeclaracionRobot_none _ _ _ _ heq)
        · split
          · split
            · split
              · rename_i st' i' heq
                rcases ih i' st' with h1 | ⟨e, h1⟩ <;>
                  rw [h1, (procesarRepetir_some _ _ _ _ _ heq).1]
                · exact Or.inl rfl
                · exact Or.inr ⟨e, rfl⟩
              · rename_i st' heq
                exact Or.inr (procesarRepetir_none _ _ _ _ heq)
            · split
              · rename_i st' i' heq
                rcases ih i' st' with h1 | ⟨e, h1⟩ <;>
                  rw [h1, (procesarComandoRobot_some _ _ _ _ _ heq).1]
                · exact Or.inl rfl
                · exact Or.inr ⟨e, rfl⟩
              · rename_i st' heq
                exact Or.inr (procesarComandoRobot_none _ _ _ _ heq)
          · exact Or.inr ⟨_, rfl⟩
    · exact Or.inl rfl

/-- C8: for every input, `success` holds exactly when the error list is
empty, and the error list never holds more than one entry — the first
failure of any kind appends one message and halts the analysis. -/
theorem claim_C8_fallo_rapido_un_error (entrada : String) :
    ((analizar entrada).exito = true ↔ (analizar entrada).errores = []) ∧
    (analizar entrada).errores.length ≤ 1 := by
  constructor
  · exact List.isEmpty_iff
  · have hres : (analizar entrada).errores =
        (if splitWhitespace entrada = [] then
          { estadoInicial with errores := estadoInicial.errores ++ ["Código vacío"] }
        else mainLoop (splitWhitespace entrada)
          ((splitWhitespace entrada).length + 1) 0 estadoInicial).errores := rfl
    rw [hres]
    split_ifs with hsp
    · simp [estadoInicial]
    · rcases mainLoop_errores (splitWhitespace entrada)
        ((splitWhitespace entrada).length + 1) 0 estadoInicial with h1 | ⟨e, h1⟩ <;>
        rw [h1] <;> simp [estadoInicial]

/-- C1: whenever the repeat-block handler succeeds, the header's parsed
repetition count `N = int(palabras[i+2])` lies in `[1, 100]` and the
quadruple list gains exactly the segment `BEGIN_LOOP(N, —, loopId)` ++
body ++ `END_LOOP(loopId, N, —)`, where `loopId` is the fresh
`loop<counter>` id (`END_LOOP`'s first operand equals `BEGIN_LOOP`'s
result), both framers carry that same `N`, and `body` is pinned — by the
equation on the intermediate state — to the quadruples appended by a
*single* run of the block analyzer over the scanned block (non-empty,
never loop framers): the body appears exactly once, not `N` times. -/
theorem claim_C1_repetir_marco_de_bucle (palabras : List String) (i : Nat)
    (st st' : Estado) (j : Nat)
    (h : procesarRepetir palabras i st = (st', some j)) :
    1 ≤ valorNumerico (palabras.getD (i + 2) "") ∧
    valorNumerico (palabras.getD (i + 2) "") ≤ 100 ∧
    ∃ (stMid : Estado) (body : List Cuadruplo),
      analizarBloque (scanBloque (palabras.drop (i + 4)) 1).1
        ((splitPunto (palabras.getD i "")).getD 0 "")
        { st with
          contadorCuadruplos := st.contadorCuadruplos + 1,
          cuadruplos := st.cuadruplos ++
            [⟨"BEGIN_LOOP", toString (valorNumerico (palabras.getD (i + 2) "")),
              "—", "loop" ++ toString st.contadorCuadruplos⟩] } =
          Except.ok stMid ∧
      stMid.cuadruplos = st.cuadruplos ++
        [⟨"BEGIN_LOOP", toString (valorNumerico (palabras.getD (i + 2) "")),
          "—", "loop" ++ toString st.contadorCuadruplos⟩] ++ body ∧
      body ≠ [] ∧
      (∀ q ∈ body, q.operador ≠ "BEGIN_LOOP" ∧ q.operador ≠ "END_LOOP") ∧
      st'.cuadruplos = st.cuadruplos ++
        [⟨"BEGIN_LOOP", toString (valorNumerico (palabras.getD (i + 2) "")),
          "—", "loop" ++ toString st.contadorCuadruplos⟩] ++ body ++
        [⟨"END_LOOP", "loop" ++ toString st.contadorCuadruplos,
          toString (valorNumerico (palabras.getD (i + 2) "")), "—"⟩] := by
  simp only [procesarRepetir] at h
  split_ifs at h
  all_goals try exact Option.noConfusion (congrArg Prod.snd h)
  split at h
  · exact Option.noConfusion (congrArg Prod.snd h)
  · rename_i st3 heq
    injection h with h1 h2
    subst h1
    rename_i hparse hsyn hval hrango hscan hx
    obtain ⟨he, a, hne, hc, hall⟩ := analizarBloque_ok _ _ _ _ heq
    refine ⟨hrango.1, hrango.2, st3, a, heq, ?_, hne, ?_, ?_⟩
    · rw [hc]
    · intro q hq
      rcases hall q hq with h | h | h <;> rw [h] <;>
        exact ⟨by decide, by decide⟩
    · show st3.cuadruplos ++ _ = _
      rw [hc]

/-- Witness for C1: the block `R1.repetir = 3 { R1.base = 90 }` processed
at cursor 0 in the state where `R1` is declared, plus the closed
evaluation showing the instruction stream for `N = 3`: one `BEGIN_LOOP`
carrying `3`, the body's two quadruples exactly once, one matching
`END_LOOP` carrying `3`. -/
theorem claim_C1_repetir_marco_de_bucle_witness :
    ((1 : Int) ≤ valorNumerico "3" ∧
      valorNumerico "3" ≤ 100 ∧
      ∃ (stMid : Estado) (body : List Cuadruplo),
        analizarBloque ["R1.base", "=", "90"] "R1"
          { estadoConR1 with
            contadorCuadruplos := estadoConR1.contadorCuadruplos + 1,
            cuadruplos := estadoConR1.cuadruplos ++
              [⟨"BEGIN_LOOP", "3", "—", "loop0"⟩] } = Except.ok stMid ∧
        stMid.cuadruplos = estadoConR1.cuadruplos ++
          [⟨"BEGIN_LOOP", "3", "—", "loop0"⟩] ++ body ∧
        body ≠ [] ∧
        (∀ q ∈ body, q.operador ≠ "BEGIN_LOOP" ∧ q.operador ≠ "END_LOOP") ∧
        (procesarRepetir ["R1.repetir", "=", "3", "\x7b", "R1.base", "=", "90", "\x7d"]
            0 estadoConR1).1.cuadruplos = estadoConR1.cuadruplos ++
          [⟨"BEGIN_LOOP", "3", "—", "loop0"⟩] ++ body ++
          [⟨"END_LOOP", "loop0", "3", "—"⟩]) ∧
    (procesarRepetir ["R1.repetir", "=", "3", "\x7b", "R1.base", "=", "90", "\x7d"]
        0 estadoConR1).1.cuadruplos =
      [⟨"CREATE", "Robot", "—", "R1"⟩,
       ⟨"BEGIN_LOOP", "3", "—", "loop0"⟩,
       ⟨"SET_SPEED", "R1", "5", "pre_speed_1"⟩,
       ⟨"MOVE", "R1", "90", "base"⟩,
       ⟨"END_LOOP", "loop0", "3", "—"⟩] :=
  ⟨claim_C1_repetir_marco_de_bucle
    ["R1.repetir", "=", "3", "\x7b", "R1.base", "=", "90", "\x7d"]
    0 estadoConR1 _ 8 rfl, rfl⟩

/-- Reduction of the command handler on a `R1.velocidad = <vs>` statement:
once the robot is declared and the value token is numeric, everything
hinges on the configured `velocidad` range `(1, 60)`. -/
theorem procesarComandoRobot_velocidad (vs : String) (st : Estado)
    (hdecl : robotDeclarado st.tablaSimbolos "R1" = true)
    (hval : patronValor vs = true) :
    procesarComandoRobot ["R1.velocidad", "=", vs] 0 st =
      (if ¬ (1 ≤ valorNumerico vs ∧ valorNumerico vs ≤ 60) then
        ({ st with errores := st.errores ++
            [msgFueraDeRango "velocidad" (valorNumerico vs) 1 60] }, none)
      else procesarAsignacion st "R1" "velocidad" false (valorNumerico vs) 0) := by
  simp only [procesarComandoRobot]
  rw [show ["R1.velocidad", "=", vs].getD 0 "" = "R1.velocidad" from rfl,
    show ["R1.velocidad", "=", vs].getD (0 + 1) "" = "=" from rfl,
    show ["R1.velocidad", "=", vs].getD (0 + 2) "" = vs from rfl,
    show parsearComando "R1.velocidad" = Except.ok ("R1", "velocidad", false) from rfl]
  dsimp only
  rw [if_neg (by decide : ¬ ("=" : String) ≠ "="),
    if_neg (not_not_intro hdecl),
    if_neg (not_not_intro (by decide : comandos.contains "velocidad" = true)),
    if_neg (not_not_intro hval),
    show rangos "velocidad" = some (1, 60) from rfl]

/-- C2 (as amended): after `Robot R1`, the assignment `R1.velocidad = v`
succeeds (cursor advances, no error) exactly for `1 ≤ v ≤ 60`, and for
`v = 0` or `v > 60` it fails with the out-of-range error naming the value
and the bounds `1-60` — the configured range is `(1, 60)`, not the
`[1, 100]` the claim states. -/
theorem claim_C2_velocidad_rango (vs : String) (st : Estado)
    (hdecl : robotDeclarado st.tablaSimbolos "R1" = true)
    (hval : patronValor vs = true) :
    (1 ≤ valorNumerico vs ∧ valorNumerico vs ≤ 60 →
      (procesarComandoRobot ["R1.velocidad", "=", vs] 0 st).2 = some 3 ∧
      (procesarComandoRobot ["R1.velocidad", "=", vs] 0 st).1.errores = st.errores) ∧
    (valorNumerico vs = 0 ∨ 60 < valorNumerico vs →
      (procesarComandoRobot ["R1.velocidad", "=", vs] 0 st).2 = none ∧
      (procesarComandoRobot ["R1.velocidad", "=", vs] 0 st).1.errores =
        st.errores ++ [msgFueraDeRango "velocidad" (valorNumerico vs) 1 60]) := by
  have hr := procesarComandoRobot_velocidad vs st hdecl hval
  constructor
  · intro hv
    rw [hr, if_neg (not_not_intro hv)]
    obtain ⟨h2, he, -⟩ := procesarAsignacion_spec st "R1" "velocidad" false
      (valorNumerico vs) 0 (valorNumerico_nonneg vs)
    exact ⟨h2, he⟩
  · intro hv
    have hnv : ¬ (1 ≤ valorNumerico vs ∧ valorNumerico vs ≤ 60) := by
      rcases hv with h | h <;> (rintro ⟨h1, h2⟩; omega)
    rw [hr, if_pos hnv]
    exact ⟨rfl, rfl⟩

/-- Witness for the amended C2 at `v = 61` in the state after `Robot R1`:
the out-of-range branch fires. -/
theorem claim_C2_velocidad_rango_witness :
    (1 ≤ valorNumerico "61" ∧ valorNumerico "61" ≤ 60 →
      (procesarComandoRobot ["R1.velocidad", "=", "61"] 0 estadoConR1).2 = some 3 ∧
      (procesarComandoRobot ["R1.velocidad", "=", "61"] 0 estadoConR1).1.errores =
        estadoConR1.errores) ∧
    (valorNumerico "61" = 0 ∨ 60 < valorNumerico "61" →
      (procesarComandoRobot ["R1.velocidad", "=", "61"] 0 estadoConR1).2 = none ∧
      (procesarComandoRobot ["R1.velocidad", "=", "61"] 0 estadoConR1).1.errores =
        estadoConR1.errores ++ [msgFueraDeRango "velocidad" (valorNumerico "61") 1 60]) :=
  claim_C2_velocidad_rango "61" estadoConR1 rfl rfl

/-- C5 (as amended): the lexical charset check applies only to the token
at the dispatcher's current position — such a non-conforming token aborts
immediately with the lexical `Token inválido` error; tokens consumed as
handler lookahead (operator, value, identifier, brace) are never
lexically validated, so a malformed value token such as `9#` in
`Robot R1 R1.base = 9#` instead triggers the handler's *semantic*
`Valor numérico inválido` error. -/
theorem claim_C5_error_lexico_solo_en_despacho :
    (∀ (palabras : List String) (i : Nat) (st : Estado) (fuel : Nat),
      i < palabras.length → lexToken (palabras.getD i "") = false →
      mainLoop palabras (fuel + 1) i st =
        { st with errores := st.errores ++
            ["Token inválido: \x27" ++ palabras.getD i "" ++ "\x27"] }) ∧
    (analizar "Robot R1 R1.base = 9#").errores =
      ["Valor numérico inválido: \x279#\x27"] := by
  constructor
  · intro palabras i st fuel hi hlex
    rw [List.getD_eq_getElem?_getD] at hlex
    simp only [mainLoop, List.getD_eq_getElem?_getD]
    rw [if_pos hi, if_pos (by simp [hlex])]
  · rfl

/-- Witness for the amended C5: the bad token `"#"` at dispatcher position
0 aborts with the lexical error, and the `9#` example yields the semantic
error. -/
theorem claim_C5_error_lexico_solo_en_despacho_witness :
    mainLoop ["#"] 1 0 estadoInicial =
      { estadoInicial with errores := estadoInicial.errores ++
          ["Token inválido: \x27" ++ (["#"] : List String).getD 0 "" ++ "\x27"] } ∧
    (analizar "Robot R1 R1.base = 9#").errores =
      ["Valor numérico inválido: \x279#\x27"] :=
  ⟨claim_C5_error_lexico_solo_en_despacho.1 ["#"] 0 estadoInicial 0
    (by decide) rfl,
   claim_C5_error_lexico_solo_en_despacho.2⟩

/-- C6: an accepted `.negativo` assignment parsed as `(rid, norm, true)`
(whose base command `creal` is a movement, by `comandos_negativos`)
stores the symbol-table value `-v` and emits a `MOVE_NEG` quadruple
carrying `-v` (after the `SET_SPEED` for the current velocity); for
`v = 0` the stored value is exactly `0` (an `Int` has no negative
zero). -/
theorem claim_C6_negativo_almacena_menos_v (palabras : List String) (i : Nat)
    (st st' : Estado) (j : Nat) (rid norm creal : String)
    (h : procesarComandoRobot palabras i st = (st', some j))
    (hp : parsearComando (palabras.getD i "") = Except.ok (rid, norm, true))
    (hc : comandosNegativos norm = some creal) :
    (∃ pre : Cuadruplo, pre.operador = "SET_SPEED" ∧
      st'.cuadruplos = st.cuadruplos ++
        [pre, ⟨"MOVE_NEG", rid,
          toString (-(valorNumerico (palabras.getD (i + 2) ""))), creal⟩]) ∧
    st'.tablaSimbolos.getLast? =
      some ⟨rid, creal, 1, -(valorNumerico (palabras.getD (i + 2) ""))⟩ ∧
    (valorNumerico (palabras.getD (i + 2) "") = 0 →
      -(valorNumerico (palabras.getD (i + 2) "")) = 0) := by
  have hne : creal ≠ "velocidad" := by
    have hv := comandosNegativos_getD_ne_velocidad norm
    rw [hc] at hv
    simpa using hv
  simp only [procesarComandoRobot] at h
  rw [hp] at h
  dsimp only at h
  split_ifs at h
  all_goals try exact Option.noConfusion (congrArg Prod.snd h)
  all_goals
    simp only [procesarAsignacion, if_true, hc, Option.getD_some] at h
  all_goals rw [if_neg hne] at h
  all_goals split at h
  all_goals try split_ifs at h
  all_goals try exact Option.noConfusion (congrArg Prod.snd h)
  all_goals injection h with h1 h2
  all_goals subst h1
  all_goals
    refine ⟨⟨_, rfl, rfl⟩, ?_, fun h0 => by rw [h0]; exact neg_zero⟩
  all_goals
    simp [actualizarSimbolo, procesarMovimientoNegativo]

/-- Witness for C6: `R1.garra.negativo = 40` after `Robot R1` emits
`MOVE_NEG(R1, -40, garra)` and stores `{R1, garra, 1, -40}`. -/
theorem claim_C6_negativo_almacena_menos_v_witness :
    (∃ pre : Cuadruplo, pre.operador = "SET_SPEED" ∧
      (procesarComandoRobot ["R1.garra.negativo", "=", "40"] 0 estadoConR1).1.cuadruplos =
        estadoConR1.cuadruplos ++
          [pre, ⟨"MOVE_NEG", "R1", toString (-(40 : Int)), "garra"⟩]) ∧
    (procesarComandoRobot ["R1.garra.negativo", "=", "40"] 0
        estadoConR1).1.tablaSimbolos.getLast? =
      some ⟨"R1", "garra", 1, -(40 : Int)⟩ ∧
    ((40 : Int) = 0 → -(40 : Int) = 0) :=
  claim_C6_negativo_almacena_menos_v ["R1.garra.negativo", "=", "40"] 0
    estadoConR1 _ 3 "R1" "garra.negativo" "garra" rfl rfl rfl

/-- C10: inside a repeat-block body, a token without a dot is silently
skipped (the cursor advances by one, no error is raised) and a trailing
group of fewer than three tokens silently ends the loop; consequently the
example `R1.repetir = 2 { R1.base = 90 R1.codo }` — one valid statement
followed by a stray incomplete token — still succeeds. -/
theorem claim_C10_tokens_sueltos_en_bloque :
    (∀ (robotId cc operador valorStr : String) (rest : List String)
        (st : Estado) (n : Nat),
      cc.data.contains '.' = false →
      bloqueLoop robotId (cc :: operador :: valorStr :: rest) st n =
        bloqueLoop robotId (operador :: valorStr :: rest) st n) ∧
    (∀ (robotId : String) (b : List String) (st : Estado) (n : Nat),
      b.length < 3 → bloqueLoop robotId b st n = Except.ok (st, n)) ∧
    (analizar "R1.repetir = 2 \x7b R1.base = 90 R1.codo \x7d").exito = true := by
  refine ⟨?_, ?_, rfl⟩
  · intro robotId cc operador valorStr rest st n hdot
    rw [bloqueLoop]
    rw [if_pos (show ¬ cc.data.contains '.' = true by rw [hdot]; decide)]
  · intro robotId b st n hb
    rcases b with _ | ⟨x, _ | ⟨y, _ | ⟨z, rest⟩⟩⟩
    · rfl
    · rfl
    · rfl
    · exfalso
      simp only [List.length_cons] at hb
      omega

/-- Witness for C10: a dot-free token is skipped, a 1-token trailing group
is ignored, and the cited example input succeeds. -/
theorem claim_C10_tokens_sueltos_en_bloque_witness :
    bloqueLoop "R1" ["abc", "=", "5"] estadoInicial 0 =
      bloqueLoop "R1" ["=", "5"] estadoInicial 0 ∧
    bloqueLoop "R1" ["R1.codo"] estadoInicial 0 = Except.ok (estadoInicial, 0) ∧
    (analizar "R1.repetir = 2 \x7b R1.base = 90 R1.codo \x7d").exito = true :=
  ⟨claim_C10_tokens_sueltos_en_bloque.1 "R1" "abc" "=" "5" [] estadoInicial 0
      (by decide),
   claim_C10_tokens_sueltos_en_bloque.2.1 "R1" ["R1.codo"] estadoInicial 0
      (by decide),
   claim_C10_tokens_sueltos_en_bloque.2.2⟩

end RoboDK
